import Mathlib

/-!
Verification development for the roboptim-core function / problem / solver
abstraction layer.

The C++ sources embedded here are:
  - include/roboptim-core/solver.hxx      (Solver implementation and the
                                           NumericLinearFunction declaration)
  - include/roboptim-core/linear-function.hh (LinearFunction declaration)
  - include/roboptim/core/solver-state.hxx   (SolverState implementation)
  - src/optimization-fwd.hh               (design documentation and the
                                           tutorial test driver)
Scalars are modelled as rationals.  Bodies that live in translation units
absent from the sources (the generic solver lifecycle, the numeric linear
function bodies, the base hessian body, the parameter-store insertion) are
modelled from the specification and are marked as such in their doc comments.
-/

namespace RobOptim

/-! ### Vectors and matrices -/

/-- Dense vector of rationals (Eigen vector_t). -/
abbrev Vec := List ℚ

/-- Dense matrix of rationals, row major (Eigen matrix_t). -/
abbrev Mat := List (List ℚ)

/-- Dot product of two vectors. -/
def dot (u v : Vec) : ℚ := (List.zipWith (fun a b => a * b) u v).sum

/-- Matrix-vector product: one dot product per row. -/
def matVec (A : Mat) (x : Vec) : Vec := A.map (fun row => dot row x)

/-- Componentwise vector sum. -/
def vecAdd (u v : Vec) : Vec := List.zipWith (fun a b => a + b) u v

/-- The zero n-by-n matrix. -/
def zeroMatrix (n : ℕ) : Mat := List.replicate n (List.replicate n 0)

/-! ### The Result variant

From the design documentation (src/optimization-fwd.hh, section "Generic
solver"): the cached result is a variant holding No_Solution, Result,
ResultWithWarnings or SolverError; the tutorial test driver switches on
`res.which ()` with cases SOLVER_VALUE, SOLVER_VALUE_WARNINGS,
SOLVER_NO_SOLUTION and SOLVER_ERROR. -/

/-- The closed outcome variant of a solve attempt. -/
inductive ResultV
  | noSolution
  | result (xStar : Vec) (value : Vec) (constraints : Vec)
  | resultWithWarnings (xStar : Vec) (value : Vec) (constraints : Vec)
      (warnings : List String)
  | solverError (msg : String)
  deriving DecidableEq

/-- The discriminating tag of the Result variant (`which ()` in the test
driver of src/optimization-fwd.hh). -/
inductive ResultTag
  | SOLVER_NO_SOLUTION
  | SOLVER_VALUE
  | SOLVER_VALUE_WARNINGS
  | SOLVER_ERROR
  deriving DecidableEq

/-- Tag of a Result variant value. -/
def ResultV.which : ResultV → ResultTag
  | .noSolution => .SOLVER_NO_SOLUTION
  | .result _ _ _ => .SOLVER_VALUE
  | .resultWithWarnings _ _ _ _ => .SOLVER_VALUE_WARNINGS
  | .solverError _ => .SOLVER_ERROR

/-! ### Generic solver lifecycle

The design documentation (src/optimization-fwd.hh, "Generic solver") states:
`solve` fills the protected attribute `result_`, which by default contains a
`No_Solution` instance; the user calls `getMinimum`, which calls `solve` if
required; if `getMinimum` is called several times the problem is only solved
once; `reset` forces recomputation.  The body of GenericSolver itself
(generic-solver.cc / generic-solver.hh) is not among the sources. -/

/-- Modelled from the spec: the state of a GenericSolver, missing from the
sources (only the design documentation in src/optimization-fwd.hh describes
it).  `result_` is the cached Result, initially `NoSolution`.  `solveCount` is
an instrumentation counter for the number of `solve()` invocations (the spec
makes solve invocations countable via a bridge stub); it is ghost state, not
data of the C++ object. -/
structure GenericSolver where
  result_ : ResultV
  solveCount : ℕ
  deriving DecidableEq

/-- A freshly constructed GenericSolver: cached tag `NoSolution`, no solve
invocation yet. -/
def initGenericSolver : GenericSolver := ⟨ResultV.noSolution, 0⟩

/-- A bridge: the external implementation of `solve()`.  `bridge k` is the
Result the k-th `solve()` invocation writes into the cache. -/
abbrev Bridge := ℕ → ResultV

/-- Modelled from the spec: one `solve()` invocation — the bridge writes its
outcome into `result_` (and the ghost counter advances). -/
def GenericSolver.solveStep (bridge : Bridge) (s : GenericSolver) :
    GenericSolver :=
  ⟨bridge s.solveCount, s.solveCount + 1⟩

/-- Modelled from the spec: `getMinimum()` — if the cached tag is
`NoSolution`, invoke `solve()` exactly once and store its outcome, then
return the cached Result; otherwise return the cached Result unchanged. -/
def GenericSolver.getMinimum (bridge : Bridge) (s : GenericSolver) :
    ResultV × GenericSolver :=
  if s.result_.which = ResultTag.SOLVER_NO_SOLUTION then
    let s' := s.solveStep bridge
    (s'.result_, s')
  else
    (s.result_, s)

/-- Modelled from the spec: `reset()` — force the cached tag back to
`NoSolution` regardless of the current tag. -/
def GenericSolver.reset (s : GenericSolver) : GenericSolver :=
  ⟨ResultV.noSolution, s.solveCount⟩

/-! ### Problem and Solver

Solver<F, C> (include/roboptim-core/solver.hxx): the constructor stores the
problem in the member `problem_`; `problem ()` returns `problem_`;
`print (o)` returns `o << problem_`.  No member function reassigns
`problem_`.  The Problem class itself is not among the sources; the design
documentation (src/optimization-fwd.hh, "The problem class") lists its
components. -/

/-- Identity of a function of the hierarchy as the Problem aggregate sees it:
input dimension, output dimension and a display label. -/
structure FunctionInfo where
  inputSize : ℕ
  outputSize : ℕ
  label : String
  deriving DecidableEq

/-- Modelled from the spec: the Problem aggregate (problem.hh is not among
the sources; src/optimization-fwd.hh lists its components: a cost function, a
set of constraints, bounds on the input arguments, bounds on the constraint
outputs, scales on both). -/
structure ProblemM where
  function : FunctionInfo
  constraints : List FunctionInfo
  argumentBounds : List (Option ℚ × Option ℚ)
  argumentScales : List ℚ
  deriving DecidableEq

/-- Solver<F, C>: the member `problem_` set by the constructor
(solver.hxx lines 27-32) together with the GenericSolver base state. -/
structure Solver where
  problem_ : ProblemM
  base : GenericSolver
  deriving DecidableEq

/-- The Solver constructor (solver.hxx lines 27-32): store the problem,
initialize the GenericSolver base. -/
def mkSolver (pb : ProblemM) : Solver := ⟨pb, initGenericSolver⟩

/-- `Solver::problem ()` (solver.hxx lines 47-52): return `problem_`. -/
def Solver.problem (s : Solver) : ProblemM := s.problem_

/-- Rendering of a problem.  The `operator<<` body for Problem is not among
the sources; only its existence matters here (Solver::print forwards to
it). -/
def printProblem (pb : ProblemM) : String :=
  pb.function.label

/-- `Solver::print (o)` (solver.hxx lines 54-59): return `o << problem_`.
A const member function: it renders the problem and leaves the solver
unchanged. -/
def Solver.printS (s : Solver) : String := printProblem s.problem_

/-- `getMinimum ()` lifted to Solver: the GenericSolver lifecycle acts on the
base state only; `problem_` is not touched. -/
def Solver.getMinimumS (bridge : Bridge) (s : Solver) : ResultV × Solver :=
  ((s.base.getMinimum bridge).1, ⟨s.problem_, (s.base.getMinimum bridge).2⟩)

/-- `reset ()` lifted to Solver. -/
def Solver.resetS (s : Solver) : Solver := ⟨s.problem_, s.base.reset⟩

/-- The public operations of a Solver. -/
inductive SolverOp
  | opGetMinimum
  | opReset
  | opProblem
  | opPrint
  deriving DecidableEq

/-- State transition of one public operation.  `problem ()` and `print ()`
are const member functions (solver.hxx lines 47-59): they leave the solver
unchanged. -/
def Solver.applyOp (bridge : Bridge) (s : Solver) : SolverOp → Solver
  | .opGetMinimum => (s.getMinimumS bridge).2
  | .opReset => s.resetS
  | .opProblem => s
  | .opPrint => s

/-- State after a sequence of public operations. -/
def Solver.applyOps (bridge : Bridge) (s : Solver) (ops : List SolverOp) :
    Solver :=
  ops.foldl (Solver.applyOp bridge) s

/-! ### LinearFunction and its subclasses

include/roboptim-core/linear-function.hh declares
`virtual hessian_t hessian (const vector_t&, int) const throw ();`
on LinearFunction.  The keyword `virtual` means a concrete subclass may
override `hessian`; the base body (linear-function.cc, absent from the
sources) is the one the spec describes as returning the zero matrix. -/

/-- Modelled from the spec: the body of `LinearFunction::hessian`
(linear-function.cc is not among the sources).  The spec: the hessian of a
linear function is identically the zero matrix, for every input vector and
every output component. -/
def LinearFunction.baseHessian (n : ℕ) (_x : Vec) (_i : ℤ) : Mat :=
  zeroMatrix n

/-- A concrete subclass of LinearFunction.  `hessian` is declared `virtual`
(linear-function.hh line 35), so a subclass may supply an overriding body;
`hessianOverride = none` means the subclass inherits the base body. -/
structure LinearSub where
  n : ℕ
  m : ℕ
  evaluateImpl : Vec → Vec
  gradientImpl : Vec → ℕ → Vec
  hessianOverride : Option (Vec → ℤ → Mat)

/-- Virtual dispatch of `hessian` on a LinearFunction subclass: the override
when the subclass supplies one, the base body otherwise. -/
def LinearSub.hessian (f : LinearSub) (x : Vec) (i : ℤ) : Mat :=
  match f.hessianOverride with
  | some h => h x i
  | none => LinearFunction.baseHessian f.n x i

/-! ### NumericLinearFunction

Declared in solver.hxx (second part of the file): members `a_ : matrix_t`
and `b_ : vector_t`; virtual `operator ()`, `gradient` and `jacobian` are
redeclared, `hessian` is NOT redeclared — NumericLinearFunction inherits
`LinearFunction::hessian`.  The bodies (numeric-linear-function.cc) are not
among the sources. -/

/-- NumericLinearFunction: a fixed matrix `a_` (m rows, n columns) and a
fixed vector `b_` (length m), from the member declarations in
solver.hxx. -/
structure NumericLinearFunction where
  a_ : Mat
  b_ : Vec
  deriving DecidableEq

/-- Input dimension n: the number of columns of `a_`. -/
def NumericLinearFunction.inputSize (f : NumericLinearFunction) : ℕ :=
  (f.a_.headD []).length

/-- Output dimension m: the number of rows of `a_`. -/
def NumericLinearFunction.outputSize (f : NumericLinearFunction) : ℕ :=
  f.a_.length

/-- Modelled from the spec: the body of `NumericLinearFunction::operator ()`
(numeric-linear-function.cc is not among the sources).  The spec:
`evaluate (x) = A·x + b`; computed entrywise, result i = (row i of A)·x +
b i. -/
def NumericLinearFunction.evaluate (f : NumericLinearFunction) (x : Vec) :
    Vec :=
  List.zipWith (fun row bi => dot row x + bi) f.a_ f.b_

/-- Modelled from the spec: the body of `NumericLinearFunction::gradient`
(missing from the sources).  The spec: `gradient (x, i)` is row i of A. -/
def NumericLinearFunction.gradient (f : NumericLinearFunction) (_x : Vec)
    (i : ℕ) : Vec :=
  f.a_.getD i []

/-- Modelled from the spec: the body of `NumericLinearFunction::jacobian`
(missing from the sources).  The spec: `jacobian (x) = A`. -/
def NumericLinearFunction.jacobian (f : NumericLinearFunction) (_x : Vec) :
    Mat :=
  f.a_

/-- NumericLinearFunction viewed as a LinearFunction subclass: it redeclares
`operator ()`, `gradient` and `jacobian` but not `hessian` (solver.hxx), so
its hessian override slot is empty — it inherits the base body. -/
def NumericLinearFunction.toLinearSub (f : NumericLinearFunction) :
    LinearSub :=
  ⟨f.inputSize, f.outputSize, f.evaluate, f.gradient, none⟩

/-- `hessian` on a NumericLinearFunction: virtual dispatch through the
inherited LinearFunction entry. -/
def NumericLinearFunction.hessian (f : NumericLinearFunction) (x : Vec)
    (i : ℤ) : Mat :=
  f.toLinearSub.hessian x i

/-! ### Checked calls on the function hierarchy

Modelled from the spec (section "Function hierarchy"): a call whose argument
vector length differs from n, or whose output index lies outside [0, m),
fails with an OutOfRange condition.  The validating bodies are not among the
sources (only the declarations in linear-function.hh and solver.hxx are). -/

/-- The structural failure condition of a hierarchy call. -/
inductive CallError
  | outOfRange
  deriving DecidableEq

/-- Modelled from the spec: `operator ()` with argument validation — an
argument vector whose length differs from n fails with OutOfRange. -/
def NumericLinearFunction.checkedEvaluate (f : NumericLinearFunction)
    (x : Vec) : Except CallError Vec :=
  if x.length = f.inputSize then .ok (f.evaluate x) else .error .outOfRange

/-- Modelled from the spec: `gradient` with argument and index validation —
a wrong-length argument, a negative index or an index at least m fails with
OutOfRange. -/
def NumericLinearFunction.checkedGradient (f : NumericLinearFunction)
    (x : Vec) (i : ℤ) : Except CallError Vec :=
  if x.length = f.inputSize ∧ 0 ≤ i ∧ i < (f.outputSize : ℤ) then
    .ok (f.gradient x i.toNat)
  else .error .outOfRange

/-- Modelled from the spec: `jacobian` with argument validation. -/
def NumericLinearFunction.checkedJacobian (f : NumericLinearFunction)
    (x : Vec) : Except CallError Mat :=
  if x.length = f.inputSize then .ok (f.jacobian x) else .error .outOfRange

/-- Modelled from the spec: `hessian` with argument and index validation, on
any LinearFunction subclass. -/
def LinearSub.checkedHessian (f : LinearSub) (x : Vec) (i : ℤ) :
    Except CallError Mat :=
  if x.length = f.n ∧ 0 ≤ i ∧ i < (f.m : ℤ) then
    .ok (f.hessian x i)
  else .error .outOfRange

/-! ### SolverState and its parameter store

include/roboptim/core/solver-state.hxx: the constructor resizes `x_` to
`pb.function ().inputSize ()` and zeroes it, and default-constructs the
boost::optional members `cost_` and `constraintViolation_` (empty).
`getParameter<T>` (const, lines 96-106; non-const, lines 108-118) looks the
key up with `find`, throws std::out_of_range when absent, and extracts the
stored value with `boost::get<T>`, which succeeds exactly when the stored
tagged type is T and fails otherwise.  `print` (lines 120-146) walks
`parameters_` in container order. -/

/-- The type-tagged value stored in a StateParameter (a boost::variant over
the value type, vectors, strings, integers and booleans). -/
inductive ParamValue
  | pValue (q : ℚ)
  | pVector (v : Vec)
  | pString (s : String)
  | pInt (i : ℤ)
  | pBool (b : Bool)
  deriving DecidableEq

/-- The tag a getParameter<T> request asks for. -/
inductive ParamType
  | tValue
  | tVector
  | tString
  | tInt
  | tBool
  deriving DecidableEq

/-- Tag of a stored value. -/
def ParamValue.tagOf : ParamValue → ParamType
  | .pValue _ => .tValue
  | .pVector _ => .tVector
  | .pString _ => .tString
  | .pInt _ => .tInt
  | .pBool _ => .tBool

/-- Rendering of a stored value (`operator<<` on StateParameter forwards to
its print; only its existence matters for the reporting claims). -/
def ParamValue.render : ParamValue → String
  | .pValue q => toString q.num ++ "/" ++ toString q.den
  | .pVector v => toString v.length
  | .pString s => s
  | .pInt i => toString i
  | .pBool b => toString b

/-- A parameter entry: a human-readable description and a type-tagged
value. -/
structure StateParameter where
  description : String
  value : ParamValue
  deriving DecidableEq

/-- The parameter store: string keys mapped to StateParameter entries.  The
container type alias `parameters_t` is not among the sources; modelled from
the spec: a mapping whose insertion order is irrelevant for lookup but
preserved for reporting — an association list. -/
abbrev Parameters := List (String × StateParameter)

/-- `parameters_.find (key)`: the first entry with the given key, if any. -/
def Parameters.findKey (ps : Parameters) (key : String) :
    Option StateParameter :=
  match ps with
  | [] => none
  | (k, sp) :: rest => if k = key then some sp else Parameters.findKey rest key

/-- The failure conditions of getParameter. -/
inductive GetParamError
  | keyNotFound (key : String)
  | typeMismatch
  deriving DecidableEq

/-- The SolverState members (solver-state.hxx). -/
structure SolverState where
  x_ : Vec
  cost_ : Option ℚ
  constraintViolation_ : Option ℚ
  parameters_ : Parameters
  deriving DecidableEq

/-- The SolverState constructor (solver-state.hxx lines 25-33): `cost_` and
`constraintViolation_` are default-constructed empty optionals; `x_` is
resized to the problem objective input size and zeroed; the parameter store
starts empty. -/
def mkSolverState (pb : ProblemM) : SolverState :=
  ⟨List.replicate pb.function.inputSize 0, none, none, []⟩

/-- `getParameter<T> (key) const` (solver-state.hxx lines 96-106): look the
key up with `find`; when absent, throw std::out_of_range ("key not found");
when present, `boost::get<T>` the stored value — success exactly when the
stored tag is T, `boost::bad_get` otherwise. -/
def SolverState.getParameterC (st : SolverState) (t : ParamType)
    (key : String) : Except GetParamError ParamValue :=
  match st.parameters_.findKey key with
  | none => .error (.keyNotFound key)
  | some sp =>
      if sp.value.tagOf = t then .ok sp.value else .error .typeMismatch

/-- `getParameter<T> (key)` non-const (solver-state.hxx lines 108-118): the
same lookup and extraction as the const variant, returning a mutable
reference. -/
def SolverState.getParameterM (st : SolverState) (t : ParamType)
    (key : String) : Except GetParamError ParamValue :=
  match st.parameters_.findKey key with
  | none => .error (.keyNotFound key)
  | some sp =>
      if sp.value.tagOf = t then .ok sp.value else .error .typeMismatch

/-- The const getParameter with the parameter store it leaves behind: every
branch of the body (solver-state.hxx lines 96-106) only reads the store
through `find`, so every branch leaves `parameters_` as received. -/
def SolverState.getParameterCFull (st : SolverState) (t : ParamType)
    (key : String) : Except GetParamError ParamValue × Parameters :=
  match st.parameters_.findKey key with
  | none => (.error (.keyNotFound key), st.parameters_)
  | some sp =>
      if sp.value.tagOf = t then (.ok sp.value, st.parameters_)
      else (.error .typeMismatch, st.parameters_)

/-- The non-const getParameter with the parameter store it leaves behind
(solver-state.hxx lines 108-118): likewise, `find` never inserts. -/
def SolverState.getParameterMFull (st : SolverState) (t : ParamType)
    (key : String) : Except GetParamError ParamValue × Parameters :=
  match st.parameters_.findKey key with
  | none => (.error (.keyNotFound key), st.parameters_)
  | some sp =>
      if sp.value.tagOf = t then (.ok sp.value, st.parameters_)
      else (.error .typeMismatch, st.parameters_)

/-- Modelled from the spec: `setParameter` (solver-state.hh is not among the
sources).  The spec: the store maps string keys to (description, value)
pairs, insertion order preserved for reporting — storing under an existing
key replaces that entry in place, a new key is appended at the end. -/
def Parameters.setParameter (ps : Parameters) (key : String)
    (sp : StateParameter) : Parameters :=
  match ps with
  | [] => [(key, sp)]
  | (k, v) :: rest =>
      if k = key then (key, sp) :: rest
      else (k, v) :: Parameters.setParameter rest key sp

/-- Fold a sequence of insertions into a store. -/
def Parameters.insertAll (ps : Parameters)
    (entries : List (String × StateParameter)) : Parameters :=
  entries.foldl (fun acc e => Parameters.setParameter acc e.1 e.2) ps

/-- One reported line of the parameter block of `print` (solver-state.hxx
lines 139-141): `key (description): value`. -/
def reportLine (e : String × StateParameter) : String :=
  e.1 ++ " (" ++ e.2.description ++ "): " ++ e.2.value.render

/-- The parameter block of `SolverState::print` (solver-state.hxx lines
134-143): one line per entry, walked in container order. -/
def SolverState.printParams (st : SolverState) : List String :=
  st.parameters_.map reportLine

/-! ### Concrete instances used by witnesses and counterexamples -/

/-- A concrete LinearFunction subclass that overrides the virtual `hessian`
with a nonzero body. -/
def overridingLinearSub : LinearSub :=
  ⟨1, 1, fun x => x, fun x _ => x, some (fun _ _ => [[1]])⟩

/-- A concrete LinearFunction subclass that does not override `hessian`. -/
def plainLinearSub : LinearSub :=
  ⟨2, 1, fun x => x, fun x _ => x, none⟩

/-- A concrete NumericLinearFunction: A is 2 by 2, b has length 2. -/
def nlfExample : NumericLinearFunction :=
  ⟨[[1, 2], [3, 4]], [5, 6]⟩

/-- A concrete solver state with one stored parameter. -/
def stExample : SolverState :=
  ⟨[0], none, none, [("alpha", ⟨"step length", ParamValue.pValue 1⟩)]⟩

/-- A concrete bridge stub that always fails. -/
def errBridge : Bridge := fun _ => ResultV.solverError "diverged"

/-- A concrete bridge stub that always succeeds. -/
def okBridge : Bridge := fun _ => ResultV.result [1] [2] []

/-- Concrete parameter entries, keys deliberately not in key order. -/
def entriesEx : List (String × StateParameter) :=
  [("beta", ⟨"second", ParamValue.pInt 1⟩), ("alpha", ⟨"first", ParamValue.pInt 2⟩)]

/-- The same entries in the opposite order. -/
def entriesExRev : List (String × StateParameter) :=
  [("alpha", ⟨"first", ParamValue.pInt 2⟩), ("beta", ⟨"second", ParamValue.pInt 1⟩)]

/-! ### Helper lemmas -/

/-- getMinimum on a state whose cached tag is not NoSolution returns the
cache unchanged. -/
theorem getMinimum_of_solved (bridge : Bridge) (s : GenericSolver)
    (h : s.result_.which ≠ ResultTag.SOLVER_NO_SOLUTION) :
    GenericSolver.getMinimum bridge s = (s.result_, s) := by
  simp [GenericSolver.getMinimum, h]

/-- One public operation leaves the stored problem untouched. -/
theorem applyOp_problem (bridge : Bridge) (s : Solver) (op : SolverOp) :
    (s.applyOp bridge op).problem_ = s.problem_ := by
  cases op <;> rfl

/-- A sequence of public operations leaves the stored problem untouched. -/
theorem applyOps_problem (bridge : Bridge) (ops : List SolverOp) :
    ∀ s : Solver, (s.applyOps bridge ops).problem_ = s.problem_ := by
  induction ops with
  | nil => intro s; rfl
  | cons op rest ih =>
      intro s
      have : s.applyOps bridge (op :: rest)
          = (s.applyOp bridge op).applyOps bridge rest := rfl
      rw [this, ih, applyOp_problem]

/-- Key lookup is invariant under permutation of a store with distinct
keys. -/
theorem findKey_perm {ps ps' : Parameters} (h : ps.Perm ps')
    (hnd : (ps.map Prod.fst).Nodup) (key : String) :
    ps.findKey key = ps'.findKey key := by
  induction h with
  | nil => rfl
  | cons a h ih =>
      obtain ⟨k, sp⟩ := a
      simp only [List.map_cons] at hnd
      have htl := hnd.of_cons
      by_cases hk : k = key <;> simp [Parameters.findKey, hk, ih htl]
  | swap a b l =>
      obtain ⟨k1, v1⟩ := a
      obtain ⟨k2, v2⟩ := b
      simp only [List.map_cons] at hnd
      have hne : k2 ≠ k1 := by
        have hh := (List.nodup_cons.mp hnd).1
        exact fun hEq => hh (by simp [hEq])
      by_cases h1 : k2 = key <;> by_cases h2 : k1 = key
      · exact absurd (h1.trans h2.symm) hne
      · simp [Parameters.findKey, h1, h2]
      · simp [Parameters.findKey, h1, h2]
      · simp [Parameters.findKey, h1, h2]
  | trans h1 h2 ih1 ih2 =>
      exact (ih1 hnd).trans (ih2 ((h1.map Prod.fst).nodup_iff.mp hnd))

/-- Storing a fresh key appends the entry at the end. -/
theorem setParameter_of_not_mem (ps : Parameters) (key : String)
    (sp : StateParameter) (h : key ∉ ps.map Prod.fst) :
    ps.setParameter key sp = ps ++ [(key, sp)] := by
  induction ps with
  | nil => rfl
  | cons e rest ih =>
      obtain ⟨k, v⟩ := e
      simp only [List.map_cons, List.mem_cons] at h
      push_neg at h
      simp [Parameters.setParameter, Ne.symm h.1, ih h.2]

/-- Folding fresh-key insertions into a store appends them in order. -/
theorem insertAll_eq_append (entries : List (String × StateParameter)) :
    ∀ ps : Parameters, ((ps ++ entries).map Prod.fst).Nodup →
      ps.insertAll entries = ps ++ entries := by
  induction entries with
  | nil => intro ps _; simp [Parameters.insertAll]
  | cons e rest ih =>
      intro ps h
      obtain ⟨k, sp⟩ := e
      have hk : k ∉ ps.map Prod.fst := by
        simp only [List.map_append, List.nodup_append] at h
        intro hmem
        exact h.2.2 hmem (by simp)
      have hstep : ps.insertAll ((k, sp) :: rest)
          = (ps.setParameter k sp).insertAll rest := rfl
      rw [hstep, setParameter_of_not_mem ps k sp hk,
        ih (ps ++ [(k, sp)]) (by simpa [List.append_assoc] using h)]
      simp

/-! ### Claim theorems -/

/-- C1: between construction (or a reset) and the next reset, solve is
invoked at most once: construction yields cached tag NoSolution; getMinimum
on a NoSolution cache invokes solve exactly once (the counter advances by
one) and otherwise invokes nothing; getMinimum returns exactly the cached
result; a second getMinimum without intervening reset changes nothing and
returns the identical cached result; reset forces the tag back to NoSolution
so the next getMinimum runs exactly one fresh solve. -/
theorem getMinimum_invokes_solve_at_most_once (bridge : Bridge)
    (s : GenericSolver)
    (hcontract : ∀ k, (bridge k).which ≠ ResultTag.SOLVER_NO_SOLUTION) :
    initGenericSolver.result_.which = ResultTag.SOLVER_NO_SOLUTION
    ∧ (GenericSolver.getMinimum bridge s).2.solveCount
        = (if s.result_.which = ResultTag.SOLVER_NO_SOLUTION
           then s.solveCount + 1 else s.solveCount)
    ∧ (GenericSolver.getMinimum bridge s).1
        = (GenericSolver.getMinimum bridge s).2.result_
    ∧ GenericSolver.getMinimum bridge (GenericSolver.getMinimum bridge s).2
        = ((GenericSolver.getMinimum bridge s).2.result_,
           (GenericSolver.getMinimum bridge s).2)
    ∧ (GenericSolver.reset s).result_.which = ResultTag.SOLVER_NO_SOLUTION
    ∧ (GenericSolver.getMinimum bridge (GenericSolver.reset s)).2.solveCount
        = s.solveCount + 1 := by
  refine ⟨rfl, ?_, ?_, ?_, rfl, rfl⟩ <;>
    by_cases h : s.result_.which = ResultTag.SOLVER_NO_SOLUTION <;>
      simp [GenericSolver.getMinimum, GenericSolver.solveStep, h,
        hcontract s.solveCount]

/-- Witness for C1 at a concrete bridge and the freshly constructed
solver. -/
theorem getMinimum_invokes_solve_at_most_once_witness :
    (GenericSolver.getMinimum errBridge initGenericSolver).2.solveCount
      = (if initGenericSolver.result_.which = ResultTag.SOLVER_NO_SOLUTION
         then initGenericSolver.solveCount + 1 else initGenericSolver.solveCount)
    ∧ GenericSolver.getMinimum errBridge
        (GenericSolver.getMinimum errBridge initGenericSolver).2
      = ((GenericSolver.getMinimum errBridge initGenericSolver).2.result_,
         (GenericSolver.getMinimum errBridge initGenericSolver).2) :=
  ⟨(getMinimum_invokes_solve_at_most_once errBridge
      initGenericSolver (fun _ h => ResultTag.noConfusion h)).2.1,
   (getMinimum_invokes_solve_at_most_once errBridge
      initGenericSolver (fun _ h => ResultTag.noConfusion h)).2.2.2.1⟩

/-- C5: getMinimum never hands a NoSolution-tagged result to its caller —
whatever the current cache, provided the bridge fulfils the solve contract
(solve writes a non-NoSolution tag), the returned result's tag is not
NoSolution. -/
theorem getMinimum_never_returns_noSolution (bridge : Bridge)
    (s : GenericSolver)
    (hcontract : ∀ k, (bridge k).which ≠ ResultTag.SOLVER_NO_SOLUTION) :
    (GenericSolver.getMinimum bridge s).1.which
      ≠ ResultTag.SOLVER_NO_SOLUTION := by
  by_cases h : s.result_.which = ResultTag.SOLVER_NO_SOLUTION <;>
    simp [GenericSolver.getMinimum, GenericSolver.solveStep, h,
      hcontract s.solveCount]

/-- Witness for C5 at a concrete bridge and the freshly constructed
solver. -/
theorem getMinimum_never_returns_noSolution_witness :
    (GenericSolver.getMinimum okBridge initGenericSolver).1.which
      ≠ ResultTag.SOLVER_NO_SOLUTION :=
  getMinimum_never_returns_noSolution okBridge
    initGenericSolver (fun _ h => ResultTag.noConfusion h)

/-- C7: the owned problem is fixed for the entire solver lifetime — it is set
at construction, `problem ()` returns it, and no sequence of public
operations (getMinimum, reset, problem, print) changes it or makes any
mutation of it observable. -/
theorem solver_problem_frozen (pb : ProblemM) (bridge : Bridge)
    (ops : List SolverOp) :
    (mkSolver pb).problem = pb
    ∧ ((mkSolver pb).applyOps bridge ops).problem_ = pb
    ∧ ((mkSolver pb).applyOps bridge ops).problem = pb
    ∧ ((mkSolver pb).applyOps bridge ops).printS = printProblem pb := by
  have hp : ((mkSolver pb).applyOps bridge ops).problem_ = pb :=
    applyOps_problem bridge ops (mkSolver pb)
  exact ⟨rfl, hp, hp, by simp [Solver.printS, hp]⟩

/-- C2 counterexample: `hessian` is declared `virtual`
(linear-function.hh line 35), so a concrete subclass CAN substitute a
different hessian — here one whose hessian is nonzero, refuting the claim
that every subclass's hessian is the zero matrix and that no subclass can
override it. -/
theorem linearFunction_hessian_not_sealed_cex :
    overridingLinearSub.hessian [0] 0 ≠ zeroMatrix overridingLinearSub.n := by
  decide

/-- C2 (amended): `LinearFunction::hessian` returns the zero n-by-n matrix
for every input vector and output index on the base tier, hence on every
subclass that does not override it; but since the method is declared
`virtual`, a subclass may substitute its own hessian — the zero-hessian
guarantee is not sealed. -/
theorem linearFunction_hessian_zero_unless_overridden (f : LinearSub)
    (x : Vec) (i : ℤ) (h : f.hessianOverride = none) :
    f.hessian x i = zeroMatrix f.n := by
  simp [LinearSub.hessian, h, LinearFunction.baseHessian]

/-- Witness for the amended C2 at a concrete non-overriding subclass. -/
theorem linearFunction_hessian_zero_unless_overridden_witness :
    plainLinearSub.hessianOverride = none
    ∧ plainLinearSub.hessian [1, 2] 0 = zeroMatrix plainLinearSub.n :=
  ⟨rfl, linearFunction_hessian_zero_unless_overridden plainLinearSub [1, 2] 0 rfl⟩

/-- C3: a NumericLinearFunction built from A and b satisfies, for every
admissible input vector and output index: evaluate (x) = A·x + b,
gradient (x, i) = row i of A, jacobian (x) = A, and hessian (x, j) is the
zero matrix for every j and x (the hessian override slot is empty, so the
base zero hessian is what virtual dispatch reaches, independent of A, b or
call history). -/
theorem numericLinearFunction_affine_spec (f : NumericLinearFunction)
    (x : Vec) (i : ℕ) (j : ℤ) (_hx : x.length = f.inputSize)
    (_hi : i < f.outputSize) :
    f.evaluate x = vecAdd (matVec f.a_ x) f.b_
    ∧ f.gradient x i = f.a_.getD i []
    ∧ f.jacobian x = f.a_
    ∧ f.hessian x j = zeroMatrix f.inputSize := by
  refine ⟨?_, rfl, rfl, rfl⟩
  simp [NumericLinearFunction.evaluate, vecAdd, matVec, List.zipWith_map_left]

/-- Witness for C3 at a concrete 2-by-2 instance. -/
theorem numericLinearFunction_affine_spec_witness :
    ([1, 1] : Vec).length = nlfExample.inputSize
    ∧ 0 < nlfExample.outputSize
    ∧ (nlfExample.evaluate [1, 1] = vecAdd (matVec nlfExample.a_ [1, 1]) nlfExample.b_
       ∧ nlfExample.gradient [1, 1] 0 = nlfExample.a_.getD 0 []
       ∧ nlfExample.jacobian [1, 1] = nlfExample.a_
       ∧ nlfExample.hessian [1, 1] 0 = zeroMatrix nlfExample.inputSize) :=
  ⟨by decide, by decide,
   numericLinearFunction_affine_spec nlfExample [1, 1] 0 0 (by decide) (by decide)⟩

/-- C4: getParameter fails with KeyNotFound when the key is absent from the
store, fails with TypeMismatch when the key is present but the stored tagged
type differs from the requested one, and otherwise returns the stored value,
in both the const and the non-const accessor variant. -/
theorem getParameter_key_and_type_spec (st : SolverState) (t : ParamType)
    (key : String) :
    (st.parameters_.findKey key = none →
       st.getParameterC t key = .error (.keyNotFound key)
       ∧ st.getParameterM t key = .error (.keyNotFound key))
    ∧ (∀ sp, st.parameters_.findKey key = some sp →
        (sp.value.tagOf ≠ t →
           st.getParameterC t key = .error .typeMismatch
           ∧ st.getParameterM t key = .error .typeMismatch)
        ∧ (sp.value.tagOf = t →
           st.getParameterC t key = .ok sp.value
           ∧ st.getParameterM t key = .ok sp.value)) := by
  refine ⟨fun h => ?_, fun sp h => ⟨fun ht => ?_, fun ht => ?_⟩⟩
  · exact ⟨by simp [SolverState.getParameterC, h],
      by simp [SolverState.getParameterM, h]⟩
  · exact ⟨by simp [SolverState.getParameterC, h, ht],
      by simp [SolverState.getParameterM, h, ht]⟩
  · exact ⟨by simp [SolverState.getParameterC, h, ht],
      by simp [SolverState.getParameterM, h, ht]⟩

/-- Witness for C4 on a concrete store: present key with matching type,
present key with mismatched type, absent key. -/
theorem getParameter_key_and_type_spec_witness :
    stExample.getParameterC ParamType.tValue "alpha"
        = .ok (ParamValue.pValue 1)
    ∧ stExample.getParameterM ParamType.tValue "alpha"
        = .ok (ParamValue.pValue 1)
    ∧ stExample.getParameterC ParamType.tBool "alpha" = .error .typeMismatch
    ∧ stExample.getParameterC ParamType.tValue "beta"
        = .error (.keyNotFound "beta") :=
  ⟨(((getParameter_key_and_type_spec stExample ParamType.tValue "alpha").2
      ⟨"step length", ParamValue.pValue 1⟩ (by decide)).2 (by decide)).1,
   (((getParameter_key_and_type_spec stExample ParamType.tValue "alpha").2
      ⟨"step length", ParamValue.pValue 1⟩ (by decide)).2 (by decide)).2,
   (((getParameter_key_and_type_spec stExample ParamType.tBool "alpha").2
      ⟨"step length", ParamValue.pValue 1⟩ (by decide)).1 (by decide)).1,
   ((getParameter_key_and_type_spec stExample ParamType.tValue "beta").1
      (by decide)).1⟩

/-- C6: the parameter store preserves insertion order for reporting —
inserting entries with pairwise-distinct fresh keys stores them exactly in
insertion order, so the print block lists them in insertion order — while
lookup by key is independent of entry order (invariant under any permutation
of a distinct-key store). -/
theorem parameters_report_insertion_order
    (entries : List (String × StateParameter))
    (hnd : (entries.map Prod.fst).Nodup) (x0 : Vec) (c cv : Option ℚ)
    (ps ps' : Parameters) (hperm : ps.Perm ps')
    (hnd2 : (ps.map Prod.fst).Nodup) (key : String) :
    Parameters.insertAll [] entries = entries
    ∧ SolverState.printParams ⟨x0, c, cv, Parameters.insertAll [] entries⟩
        = entries.map reportLine
    ∧ ps.findKey key = ps'.findKey key := by
  have h1 : Parameters.insertAll [] entries = entries :=
    insertAll_eq_append entries [] (by simpa using hnd)
  exact ⟨h1, by simp [SolverState.printParams, h1],
    findKey_perm hperm hnd2 key⟩

/-- Witness for C6 on concrete entries whose insertion order differs from
key order, and a permuted copy of the store. -/
theorem parameters_report_insertion_order_witness :
    (entriesEx.map Prod.fst).Nodup
    ∧ (Parameters.insertAll [] entriesEx = entriesEx
       ∧ SolverState.printParams ⟨[0], none, none, Parameters.insertAll [] entriesEx⟩
           = entriesEx.map reportLine
       ∧ Parameters.findKey entriesEx "alpha"
           = Parameters.findKey entriesExRev "alpha") :=
  ⟨by decide,
   parameters_report_insertion_order entriesEx (by decide) [0] none none
     entriesEx entriesExRev (by decide) (by decide) "alpha"⟩

/-- C8: a SolverState constructed from a problem whose objective has input
dimension n starts with iterate x of length exactly n, all zeros, and with
cost and constraintViolation both absent (empty optionals). -/
theorem solverState_init_spec (pb : ProblemM) :
    (mkSolverState pb).x_ = List.replicate pb.function.inputSize 0
    ∧ (mkSolverState pb).x_.length = pb.function.inputSize
    ∧ (mkSolverState pb).cost_ = none
    ∧ (mkSolverState pb).constraintViolation_ = none :=
  ⟨rfl, by simp [mkSolverState], rfl, rfl⟩

/-- C9: every function of the hierarchy, called with an argument vector
whose length differs from the declared input dimension n, or with an output
index outside [0, m), fails with an OutOfRange condition: evaluate and
jacobian on a wrong-length vector, gradient on a wrong-length vector or a
bad index, hessian (on any LinearFunction subclass) likewise. -/
theorem hierarchy_out_of_range (f : NumericLinearFunction) (g : LinearSub)
    (x : Vec) (i : ℤ) :
    (x.length ≠ f.inputSize →
       f.checkedEvaluate x = .error .outOfRange
       ∧ f.checkedJacobian x = .error .outOfRange
       ∧ f.checkedGradient x i = .error .outOfRange)
    ∧ (¬ (0 ≤ i ∧ i < (f.outputSize : ℤ)) →
       f.checkedGradient x i = .error .outOfRange)
    ∧ (¬ (x.length = g.n ∧ 0 ≤ i ∧ i < (g.m : ℤ)) →
       g.checkedHessian x i = .error .outOfRange) := by
  refine ⟨fun h => ⟨?_, ?_, ?_⟩, fun h => ?_, fun h => ?_⟩ <;>
    simp only [NumericLinearFunction.checkedEvaluate,
      NumericLinearFunction.checkedJacobian,
      NumericLinearFunction.checkedGradient, LinearSub.checkedHessian] <;>
    rw [if_neg] <;> tauto

/-- Witness for C9: a length-1 vector against a 2-input function, and a
negative output index. -/
theorem hierarchy_out_of_range_witness :
    ([1] : Vec).length ≠ nlfExample.inputSize
    ∧ nlfExample.checkedEvaluate [1] = .error .outOfRange
    ∧ nlfExample.checkedJacobian [1] = .error .outOfRange
    ∧ nlfExample.checkedGradient [1] (-1) = .error .outOfRange
    ∧ plainLinearSub.checkedHessian [1] (-1) = .error .outOfRange :=
  ⟨by decide,
   ((hierarchy_out_of_range nlfExample plainLinearSub [1] (-1)).1 (by decide)).1,
   ((hierarchy_out_of_range nlfExample plainLinearSub [1] (-1)).1 (by decide)).2.1,
   ((hierarchy_out_of_range nlfExample plainLinearSub [1] (-1)).2.1 (by decide)),
   ((hierarchy_out_of_range nlfExample plainLinearSub [1] (-1)).2.2 (by decide))⟩

/-- C10: getParameter never modifies the parameter store — in both the const
and the non-const variant the lookup goes through find (never an inserting
access), so after the call, successful or failing, the store is exactly the
one received, and the produced outcome agrees with the pure lookup. -/
theorem getParameter_preserves_parameter_store (st : SolverState)
    (t : ParamType) (key : String) :
    (st.getParameterCFull t key).2 = st.parameters_
    ∧ (st.getParameterMFull t key).2 = st.parameters_
    ∧ (st.getParameterCFull t key).1 = st.getParameterC t key
    ∧ (st.getParameterMFull t key).1 = st.getParameterM t key := by
  cases h : st.parameters_.findKey key with
  | none =>
      simp [SolverState.getParameterCFull, SolverState.getParameterMFull,
        SolverState.getParameterC, SolverState.getParameterM, h]
  | some sp =>
      by_cases hc : sp.value.tagOf = t <;>
        simp [SolverState.getParameterCFull, SolverState.getParameterMFull,
          SolverState.getParameterC, SolverState.getParameterM, h, hc]

end RobOptim
